import Mathlib

/-!
Shallow embedding of the FindMyScanner BLE advertisement classifier
(`src/src/main.cpp`) and proofs about it.

Bytes are modelled as `Nat`; wherever the C++ source casts a `char` to
`uint8_t` the embedding applies `% 256`.  Signed integers (RSSI) are `Int`.
Byte strings (`std::string` payloads) are `List Nat`.
-/

namespace FindMyScanner

/-- Company IDs (Bluetooth SIG), little endian in manufacturer data bytes. -/
def CID_APPLE : Nat := 0x004C

def CID_GOOGLE : Nat := 0x00E0

def CID_SAMSUNG : Nat := 0x0075

def CID_XIAOMI : Nat := 0x038F

/-- Service UUID for Google Fast Pair. -/
def SVC_GOOGLE_FAST_PAIR : Nat := 0xFEF3

/-- Service UUID for Apple Find My. -/
def SVC_APPLE_FIND_MY : Nat := 0xFD6F

/-- Service UUID for Samsung Find. -/
def SVC_SAMSUNG_FIND : Nat := 0xFD5A

/-- Runtime configuration: the manufacturer enable mask (`MANUFACTURES_FLAG`)
and the minimum RSSI (`MIN_RSSI_FLAG`).  In the source these are compile-time
constants; the embedding passes them explicitly. -/
structure FilterConfig where
  mask : Nat
  minRssi : Int

/-- `FILTER_APPLE = (MANUFACTURES_FLAG & 0x1) != 0` -/
def FILTER_APPLE (cfg : FilterConfig) : Bool := cfg.mask &&& 0x1 != 0

/-- `FILTER_GOOGLE = (MANUFACTURES_FLAG & 0x2) != 0` -/
def FILTER_GOOGLE (cfg : FilterConfig) : Bool := cfg.mask &&& 0x2 != 0

/-- `FILTER_SAMSUNG = (MANUFACTURES_FLAG & 0x4) != 0` -/
def FILTER_SAMSUNG (cfg : FilterConfig) : Bool := cfg.mask &&& 0x4 != 0

/-- `FILTER_XIAOMI = (MANUFACTURES_FLAG & 0x8) != 0` -/
def FILTER_XIAOMI (cfg : FilterConfig) : Bool := cfg.mask &&& 0x8 != 0

/-- Embedding of `advTypeName` (main.cpp:111). -/
def advTypeName (t : Nat) : String :=
  if t = 0 then "ADV_IND"
  else if t = 1 then "DIR_IND"
  else if t = 2 then "SCAN_IND"
  else if t = 3 then "NONCONN"
  else if t = 4 then "SCAN_RSP"
  else "UNKNOWN"

/-- The hex digit table `"0123456789ABCDEF"` of `toHex`. -/
def hexChars : List Char :=
  ['0', '1', '2', '3', '4', '5', '6', '7', '8', '9', 'A', 'B', 'C', 'D', 'E', 'F']

/-- One byte rendered as two uppercase hex digits, as in the body of the
`toHex` loop (main.cpp:122): `hex[(b >> 4) & 0xF]` then `hex[b & 0xF]`. -/
def byteHex (b : Nat) : String :=
  String.mk [hexChars.getD (((b % 256) >>> 4) &&& 0xF) '0',
             hexChars.getD ((b % 256) &&& 0xF) '0']

/-- Embedding of `toHex` (main.cpp:122): uppercase hex pairs separated by a
single space (separator after every byte except the last). -/
def toHex : List Nat → String
  | [] => ""
  | [b] => byteHex b
  | b :: rest => byteHex b ++ " " ++ toHex rest

/-- Embedding of `parseCompanyIdLE` (main.cpp:135). -/
def parseCompanyIdLE (mfd : List Nat) : Nat :=
  if mfd.length < 2 then 0xFFFF
  else (mfd.getD 0 0 % 256) ||| ((mfd.getD 1 0 % 256) <<< 8)

/-- Embedding of `companyName` (main.cpp:141). -/
def companyName (cid : Nat) : String :=
  if cid = CID_APPLE then "Apple"
  else if cid = CID_GOOGLE then "Google"
  else if cid = CID_SAMSUNG then "Samsung"
  else if cid = CID_XIAOMI then "Xiaomi"
  else "Other"

/-- Embedding of `serviceToManufacturer` (main.cpp:152). -/
def serviceToManufacturer (serviceUuid : Nat) : Nat :=
  if serviceUuid = SVC_GOOGLE_FAST_PAIR then CID_GOOGLE
  else if serviceUuid = SVC_APPLE_FIND_MY then CID_APPLE
  else if serviceUuid = SVC_SAMSUNG_FIND then CID_SAMSUNG
  else 0xFFFF

/-- Embedding of `isFindMyServiceData` (main.cpp:162). -/
def isFindMyServiceData (serviceUuid : Nat) (serviceData : List Nat) : Bool :=
  if serviceUuid = SVC_GOOGLE_FAST_PAIR then decide (3 ≤ serviceData.length)
  else if serviceUuid = SVC_APPLE_FIND_MY then decide (6 ≤ serviceData.length)
  else if serviceUuid = SVC_SAMSUNG_FIND then decide (4 ≤ serviceData.length)
  else false

/-- Embedding of `getServiceFindMyType` (main.cpp:181). -/
def getServiceFindMyType (serviceUuid : Nat) (serviceData : List Nat) : String :=
  if serviceUuid = SVC_GOOGLE_FAST_PAIR then
    if 1 ≤ serviceData.length then
      if serviceData.getD 0 0 % 256 = 0x11 then "FastPair/FindDevice"
      else if serviceData.getD 0 0 % 256 = 0x10 then "FastPair/Generic"
      else "FastPair/Unknown"
    else "FastPair"
  else if serviceUuid = SVC_APPLE_FIND_MY then "FindMy/Service"
  else if serviceUuid = SVC_SAMSUNG_FIND then "SmartTag/Service"
  else "Service/Unknown"

/-- Embedding of `isFindMyDevice` (main.cpp:206).  Note the leading guard
`if (mfd.size() < 4) return false;` before the per-company checks. -/
def isFindMyDevice (cid : Nat) (mfd : List Nat) : Bool :=
  if mfd.length < 4 then false
  else if cid = CID_APPLE then
    decide (3 ≤ mfd.length) &&
      (mfd.getD 2 0 % 256 == 0x12 || mfd.getD 2 0 % 256 == 0x10)
  else if cid = CID_GOOGLE then
    decide (3 ≤ mfd.length) && (mfd.getD 2 0 % 256 == 0x06)
  else if cid = CID_SAMSUNG then
    decide (4 ≤ mfd.length) &&
      (mfd.getD 2 0 % 256 == 0x01 || mfd.getD 2 0 % 256 == 0x02)
  else if cid = CID_XIAOMI then
    decide (3 ≤ mfd.length) && (mfd.getD 2 0 % 256 == 0x30)
  else false

/-- Embedding of `getFindMyType` (main.cpp:232). -/
def getFindMyType (cid : Nat) (mfd : List Nat) : String :=
  if mfd.length < 3 then "Unknown"
  else
    let t := mfd.getD 2 0 % 256
    if cid = CID_APPLE then
      if t = 0x12 then "FindMy/AirTag"
      else if t = 0x10 then "FindMy/Offline"
      else "FindMy/Other"
    else if cid = CID_GOOGLE then
      if t = 0x06 then "FastPair/FindMy" else "FindMy/Other"
    else if cid = CID_SAMSUNG then
      if t = 0x01 then "SmartTag"
      else if t = 0x02 then "SmartTag+"
      else "SmartTag/Other"
    else if cid = CID_XIAOMI then
      if t = 0x30 then "Anti-Lost" else "FindMy/Other"
    else "Unknown"

/-- Embedding of `isManufacturerEnabled` (main.cpp:270). -/
def isManufacturerEnabled (cfg : FilterConfig) (cid : Nat) : Bool :=
  if cid = CID_APPLE then FILTER_APPLE cfg
  else if cid = CID_GOOGLE then FILTER_GOOGLE cfg
  else if cid = CID_SAMSUNG then FILTER_SAMSUNG cfg
  else if cid = CID_XIAOMI then FILTER_XIAOMI cfg
  else false

/-- One service-data entry of an advertisement report: the UUID's bit width
and raw bytes (as `NimBLEUUID` exposes them) and the service-data payload. -/
structure ServiceDataEntry where
  uuidBitSize : Nat
  uuidBytes : List Nat
  data : List Nat

/-- The 16-bit UUID value `onResult` derives for an entry (main.cpp:479-484):
`(uuidBytes[1] << 8) | uuidBytes[0]` when the UUID is 16 bits wide, else 0. -/
def uuid16Of (e : ServiceDataEntry) : Nat :=
  if e.uuidBitSize = 16 then
    ((e.uuidBytes.getD 1 0 % 256) <<< 8) ||| (e.uuidBytes.getD 0 0 % 256)
  else 0

/-- An advertisement report as `onResult` reads it from the callback. -/
structure AdvertisedDevice where
  rssi : Int
  addr : String
  advType : Nat
  connectable : Bool
  scannable : Bool
  serviceData : List ServiceDataEntry
  manufacturerData : Option (List Nat)

/-- The classification `onResult` builds when `foundFindMyDevice` becomes
true: detected manufacturer, `dataType` ("Service" or "Manufacturer"),
device type label, and the hex rendering of the matched bytes. -/
structure Classification where
  manufacturer : Nat
  dataType : String
  deviceType : String
  dataHex : String
deriving DecidableEq

/-- Embedding of the service-data loop of `onResult` (main.cpp:474-501):
entries are scanned in order; a structural match whose manufacturer is
enabled breaks with a classification; any other entry is skipped. -/
def serviceScan (cfg : FilterConfig) : List ServiceDataEntry → Option Classification
  | [] => none
  | e :: rest =>
    if isFindMyServiceData (uuid16Of e) e.data then
      if serviceToManufacturer (uuid16Of e) != 0xFFFF &&
          isManufacturerEnabled cfg (serviceToManufacturer (uuid16Of e)) then
        some ⟨serviceToManufacturer (uuid16Of e), "Service",
              getServiceFindMyType (uuid16Of e) e.data, toHex e.data⟩
      else serviceScan cfg rest
    else serviceScan cfg rest

/-- Embedding of the manufacturer-data fallback of `onResult`
(main.cpp:504-522). -/
def mfdScan (cfg : FilterConfig) : Option (List Nat) → Option Classification
  | none => none
  | some mfd =>
    if 3 ≤ mfd.length then
      if (parseCompanyIdLE mfd == CID_APPLE || parseCompanyIdLE mfd == CID_GOOGLE ||
            parseCompanyIdLE mfd == CID_SAMSUNG || parseCompanyIdLE mfd == CID_XIAOMI) &&
          isManufacturerEnabled cfg (parseCompanyIdLE mfd) &&
          isFindMyDevice (parseCompanyIdLE mfd) mfd then
        some ⟨parseCompanyIdLE mfd, "Manufacturer",
              getFindMyType (parseCompanyIdLE mfd) mfd, toHex mfd⟩
      else none
    else none

/-- Embedding of the RSSI admission guard of `onResult` (main.cpp:463):
`if (dev->getRSSI() < MIN_RSSI) return;`. -/
def admitRssi (minRssi r : Int) : Bool := !(r < minRssi)

/-- Embedding of the classification logic of
`MyAdvertisedDeviceCallbacks::onResult` (main.cpp:461-535): RSSI guard,
then the service-data loop, then the manufacturer-data fallback.  The
printing of a found classification is modelled separately by the
formatter functions. -/
def classify (cfg : FilterConfig) (dev : AdvertisedDevice) : Option Classification :=
  if dev.rssi < cfg.minRssi then none
  else
    match serviceScan cfg dev.serviceData with
    | some c => some c
    | none => mfdScan cfg dev.manufacturerData

/-- Rendering of `"%s"` applied to a bool ternary `b ? "true" : "false"`. -/
def boolStr (b : Bool) : String := if b then "true" else "false"

/-- Decimal digits of a natural number, most significant first, prepended to
`acc`; the digit loop of C's `%d`, with a fuel argument (`n + 1` suffices)
for structural recursion. -/
def natDecCore : Nat → Nat → List Char → List Char
  | 0, _, acc => acc
  | fuel + 1, n, acc =>
    if n < 10 then Nat.digitChar n :: acc
    else natDecCore fuel (n / 10) (Nat.digitChar (n % 10) :: acc)

/-- Rendering of C's `%d` for a signed integer: optional minus sign followed
by the decimal digits. -/
def intDec (n : Int) : String :=
  if n < 0 then String.mk ('-' :: natDecCore (n.natAbs + 1) n.natAbs [])
  else String.mk (natDecCore (n.natAbs + 1) n.natAbs [])

/-- Left zero-padding to a minimum width (no-op when already wide enough). -/
def zeroPadLeft (w : Nat) (s : String) : String :=
  String.mk (List.replicate (w - s.length) '0') ++ s

/-- Rendering of C's `%03d`: minimum width 3, zero-padded after the sign. -/
def fmt03d (n : Int) : String :=
  if n < 0 then
    "-" ++ zeroPadLeft 2 (String.mk (natDecCore (n.natAbs + 1) n.natAbs []))
  else zeroPadLeft 3 (String.mk (natDecCore (n.natAbs + 1) n.natAbs []))

/-- Rendering of C's `%-Ns`: left-justified, space-padded to minimum width
(no-op when already wide enough). -/
def padRight (w : Nat) (s : String) : String :=
  s ++ String.mk (List.replicate (w - s.length) ' ')

/-- Embedding of `formatDeviceAsLog` (main.cpp:358): the snprintf format
`"%s | %-8s %-18s | %s | RSSI %03d | PDU %s | %s%-2s | %-12s [%s]\n"`. -/
def formatDeviceAsLog (manufacturer : Nat) (deviceType addr : String) (rssi : Int)
    (advType : Nat) (connectable scannable : Bool)
    (dataType dataHex timestamp : String) : String :=
  timestamp ++ " | " ++ padRight 8 (companyName manufacturer) ++ " " ++
    padRight 18 deviceType ++ " | " ++ addr ++ " | RSSI " ++ fmt03d rssi ++
    " | PDU " ++ advTypeName advType ++ " | " ++
    (if connectable then "CONN" else "NONCONN") ++
    padRight 2 (if scannable then "/SCAN" else "") ++ " | " ++
    padRight 12 dataType ++ " [" ++ dataHex ++ "]\n"

/-- The comma-joined field list of the CSV snprintf format
`"%s,%s,%s,%s,%d,%s,%s,%s,%s,%s\n"` (without the trailing newline). -/
def csvRowBody (manufacturer : Nat) (deviceType addr : String) (rssi : Int)
    (advType : Nat) (connectable scannable : Bool)
    (dataType dataHex timestamp : String) : String :=
  timestamp ++ "," ++ companyName manufacturer ++ "," ++ deviceType ++ "," ++
    addr ++ "," ++ intDec rssi ++ "," ++ advTypeName advType ++ "," ++
    boolStr connectable ++ "," ++ boolStr scannable ++ "," ++ dataType ++ "," ++
    dataHex

/-- Embedding of `formatDeviceAsCSV` (main.cpp:378). -/
def formatDeviceAsCSV (manufacturer : Nat) (deviceType addr : String) (rssi : Int)
    (advType : Nat) (connectable scannable : Bool)
    (dataType dataHex timestamp : String) : String :=
  csvRowBody manufacturer deviceType addr rssi advType connectable scannable
    dataType dataHex timestamp ++ "\n"

/-- The arguments `printDevice` passes to a formatter, plus the timestamp. -/
structure DeviceRecord where
  manufacturer : Nat
  deviceType : String
  addr : String
  rssi : Int
  advType : Nat
  connectable : Bool
  scannable : Bool
  dataType : String
  dataHex : String
  timestamp : String

/-- One CSV record line as `printDevice` emits it in CSV mode. -/
def csvRowOf (r : DeviceRecord) : String :=
  formatDeviceAsCSV r.manufacturer r.deviceType r.addr r.rssi r.advType
    r.connectable r.scannable r.dataType r.dataHex r.timestamp

/-- The expected field list recovered by splitting a CSV row on commas. -/
def csvFieldsOf (r : DeviceRecord) : List String :=
  [r.timestamp, companyName r.manufacturer, r.deviceType, r.addr, intDec r.rssi,
   advTypeName r.advType, boolStr r.connectable, boolStr r.scannable,
   r.dataType, r.dataHex]

/-- The CSV header printed by `setup` (main.cpp:584). -/
def csvHeader : String :=
  "time,manufacturer,deviceType,addr,rssi,advType,isConnectable,isScannable,dataType,dataHex"

/-- The bytes `Serial.println` sends for the header: the header text followed
by CRLF. -/
def csvHeaderEmission : String := csvHeader ++ "\r\n"

/-- The serial output of one run in CSV mode, as a list of emissions: `setup`
prints the header once (main.cpp:584), then each classified report makes
`printDevice` print exactly one row. -/
def csvEmissions (recs : List DeviceRecord) : List String :=
  csvHeaderEmission :: recs.map csvRowOf

/-- Split a character list on commas (the parse side of the CSV round-trip,
spec §8). -/
def splitCommaChars : List Char → List (List Char)
  | [] => [[]]
  | c :: rest =>
    if c = ',' then [] :: splitCommaChars rest
    else
      (c :: (splitCommaChars rest).headD []) :: (splitCommaChars rest).tail

/-- Split a string on commas. -/
def splitOnComma (s : String) : List String :=
  (splitCommaChars s.data).map String.mk

/-- The string contains no comma. -/
abbrev commaFree (s : String) : Prop := ',' ∉ s.data

/-- The free-form string fields of a record contain no comma (the fixed
vocabularies `companyName`, `advTypeName`, `boolStr`, `intDec` are comma-free
by construction). -/
abbrev RecordCommaFree (r : DeviceRecord) : Prop :=
  commaFree r.timestamp ∧ commaFree r.deviceType ∧ commaFree r.addr ∧
    commaFree r.dataType ∧ commaFree r.dataHex

/-- The Log line layout exactly as the spec states it (§6): single spaces
between manufacturer and device type, and a non-scannable report contributing
the empty string after CONN/NONCONN.  Written from the spec's words, for
comparison with `formatDeviceAsLog`. -/
def specLogLine (manufacturer : Nat) (deviceType addr : String) (rssi : Int)
    (advType : Nat) (connectable scannable : Bool)
    (dataType dataHex timestamp : String) : String :=
  timestamp ++ " | " ++ companyName manufacturer ++ " " ++ deviceType ++
    " | " ++ addr ++ " | RSSI " ++ fmt03d rssi ++ " | PDU " ++
    advTypeName advType ++ " | " ++
    (if connectable then "CONN" else "NONCONN") ++
    (if scannable then "/SCAN" else "") ++ " | " ++ dataType ++ " [" ++
    dataHex ++ "]\n"

/-- The amended Log line layout: each variable-width text field is
left-justified to the snprintf field width (8 for the manufacturer, 18 for
the device type, 2 for the /SCAN suffix, 12 for the data type), so a
non-scannable report contributes two spaces after CONN/NONCONN. -/
def specLogLinePadded (manufacturer : Nat) (deviceType addr : String) (rssi : Int)
    (advType : Nat) (connectable scannable : Bool)
    (dataType dataHex timestamp : String) : String :=
  timestamp ++ " | " ++
    (companyName manufacturer ++
      String.mk (List.replicate (8 - (companyName manufacturer).length) ' ')) ++
    " " ++
    (deviceType ++ String.mk (List.replicate (18 - deviceType.length) ' ')) ++
    " | " ++ addr ++ " | RSSI " ++ fmt03d rssi ++ " | PDU " ++
    advTypeName advType ++ " | " ++
    (if connectable then "CONN" else "NONCONN") ++
    ((if scannable then "/SCAN" else "") ++
      String.mk (List.replicate
        (2 - (if scannable then "/SCAN" else "").length) ' ')) ++
    " | " ++
    (dataType ++ String.mk (List.replicate (12 - dataType.length) ' ')) ++
    " [" ++ dataHex ++ "]\n"

/-- Spec-side condition (§3 invariants, conditions (b) and (c) for a
service-data entry): the entry structurally decodes and the manufacturer
derived from its UUID is enabled. -/
def serviceEntryEnabledMatch (cfg : FilterConfig) (e : ServiceDataEntry) : Bool :=
  isFindMyServiceData (uuid16Of e) e.data &&
    isManufacturerEnabled cfg (serviceToManufacturer (uuid16Of e))

/-- Spec-side condition (§3 invariants, conditions (b) and (c) for the
manufacturer data): the data structurally decodes and its little-endian
company id is enabled. -/
def mfdEnabledMatch (cfg : FilterConfig) : Option (List Nat) → Bool
  | none => false
  | some mfd =>
    isFindMyDevice (parseCompanyIdLE mfd) mfd &&
      isManufacturerEnabled cfg (parseCompanyIdLE mfd)

/-- The company id is one of the four known manufacturers. -/
abbrev knownCid (cid : Nat) : Prop :=
  cid = CID_APPLE ∨ cid = CID_GOOGLE ∨ cid = CID_SAMSUNG ∨ cid = CID_XIAOMI

theorem enabled_knownCid {cfg : FilterConfig} {cid : Nat}
    (h : isManufacturerEnabled cfg cid = true) : knownCid cid := by
  by_contra hk
  unfold knownCid at hk
  push_neg at hk
  obtain ⟨n1, n2, n3, n4⟩ := hk
  simp [isManufacturerEnabled, n1, n2, n3, n4] at h

theorem knownCid_ne_FFFF {cid : Nat} (h : knownCid cid) : cid ≠ 0xFFFF := by
  rcases h with h | h | h | h <;> subst h <;> decide

theorem isFindMyDevice_known {cid : Nat} {mfd : List Nat}
    (h : isFindMyDevice cid mfd = true) : 4 ≤ mfd.length ∧ knownCid cid := by
  constructor
  · by_contra hl
    have hl4 : mfd.length < 4 := by omega
    simp [isFindMyDevice, hl4] at h
  · by_contra hk
    unfold knownCid at hk
    push_neg at hk
    obtain ⟨n1, n2, n3, n4⟩ := hk
    simp [isFindMyDevice, n1, n2, n3, n4] at h

theorem serviceScan_cons_of_match {cfg : FilterConfig} {e : ServiceDataEntry}
    (rest : List ServiceDataEntry)
    (h1 : isFindMyServiceData (uuid16Of e) e.data = true)
    (h2 : isManufacturerEnabled cfg (serviceToManufacturer (uuid16Of e)) = true) :
    serviceScan cfg (e :: rest) =
      some ⟨serviceToManufacturer (uuid16Of e), "Service",
            getServiceFindMyType (uuid16Of e) e.data, toHex e.data⟩ := by
  have hne : serviceToManufacturer (uuid16Of e) ≠ 0xFFFF :=
    knownCid_ne_FFFF (enabled_knownCid h2)
  simp [serviceScan, h1, h2, hne]

theorem serviceScan_cons_of_not {cfg : FilterConfig} {e : ServiceDataEntry}
    (rest : List ServiceDataEntry)
    (h : serviceEntryEnabledMatch cfg e = false) :
    serviceScan cfg (e :: rest) = serviceScan cfg rest := by
  unfold serviceEntryEnabledMatch at h
  cases hs : isFindMyServiceData (uuid16Of e) e.data with
  | false => simp [serviceScan, hs]
  | true =>
    rw [hs, Bool.true_and] at h
    simp [serviceScan, hs, h]

theorem serviceScan_append_of_none {cfg : FilterConfig} {pre : List ServiceDataEntry}
    (l : List ServiceDataEntry)
    (h : ∀ x ∈ pre, serviceEntryEnabledMatch cfg x = false) :
    serviceScan cfg (pre ++ l) = serviceScan cfg l := by
  induction pre with
  | nil => rfl
  | cons x pre ih =>
    rw [List.cons_append, serviceScan_cons_of_not _ (h x (by simp))]
    exact ih fun y hy => h y (by simp [hy])

theorem serviceScan_some_spec {cfg : FilterConfig} {l : List ServiceDataEntry}
    {c : Classification} (h : serviceScan cfg l = some c) :
    c.dataType = "Service" ∧ isManufacturerEnabled cfg c.manufacturer = true ∧
      knownCid c.manufacturer ∧ l.any (serviceEntryEnabledMatch cfg) = true := by
  induction l with
  | nil => simp [serviceScan] at h
  | cons e rest ih =>
    cases hm : serviceEntryEnabledMatch cfg e with
    | true =>
      have hm' := hm
      simp only [serviceEntryEnabledMatch, Bool.and_eq_true] at hm'
      rw [serviceScan_cons_of_match rest hm'.1 hm'.2] at h
      cases h
      exact ⟨rfl, hm'.2, enabled_knownCid hm'.2, by simp [List.any_cons, hm]⟩
    | false =>
      rw [serviceScan_cons_of_not rest hm] at h
      obtain ⟨hd, he, hk, ha⟩ := ih h
      exact ⟨hd, he, hk, by simp [List.any_cons, ha]⟩

theorem serviceScan_isSome_iff {cfg : FilterConfig} (l : List ServiceDataEntry) :
    (serviceScan cfg l).isSome = true ↔
      l.any (serviceEntryEnabledMatch cfg) = true := by
  induction l with
  | nil => simp [serviceScan]
  | cons e rest ih =>
    cases hm : serviceEntryEnabledMatch cfg e with
    | true =>
      have hm' := hm
      simp only [serviceEntryEnabledMatch, Bool.and_eq_true] at hm'
      rw [serviceScan_cons_of_match rest hm'.1 hm'.2]
      simp [List.any_cons, hm]
    | false =>
      rw [serviceScan_cons_of_not rest hm]
      simp only [List.any_cons, hm, Bool.false_or]
      exact ih

theorem serviceScan_eq_none_iff {cfg : FilterConfig} (l : List ServiceDataEntry) :
    serviceScan cfg l = none ↔ l.any (serviceEntryEnabledMatch cfg) = false := by
  constructor
  · intro h
    cases ha : l.any (serviceEntryEnabledMatch cfg) with
    | false => rfl
    | true =>
      have hs := (serviceScan_isSome_iff l).mpr ha
      rw [h, Option.isSome_none] at hs
      exact absurd hs (by decide)
  · intro h
    cases hs : serviceScan cfg l with
    | none => rfl
    | some c =>
      have ht := (serviceScan_isSome_iff l).mp (by rw [hs]; rfl)
      rw [ht] at h
      exact absurd h (by decide)

theorem mfdScan_eq_some_iff {cfg : FilterConfig} {md : Option (List Nat)}
    {c : Classification} :
    mfdScan cfg md = some c ↔
      ∃ mfd, md = some mfd ∧
        isFindMyDevice (parseCompanyIdLE mfd) mfd = true ∧
        isManufacturerEnabled cfg (parseCompanyIdLE mfd) = true ∧
        c = ⟨parseCompanyIdLE mfd, "Manufacturer",
             getFindMyType (parseCompanyIdLE mfd) mfd, toHex mfd⟩ := by
  cases md with
  | none => simp [mfdScan]
  | some mfd =>
    constructor
    · intro h
      simp only [mfdScan] at h
      split_ifs at h with hl hc
      · rw [Bool.and_eq_true, Bool.and_eq_true] at hc
        cases h
        exact ⟨mfd, rfl, hc.2, hc.1.2, rfl⟩
    · rintro ⟨mfd2, hmd, hdev, hen, hc⟩
      cases hmd
      obtain ⟨hlen, hk⟩ := isFindMyDevice_known hdev
      have hcid : (parseCompanyIdLE mfd == CID_APPLE ||
          parseCompanyIdLE mfd == CID_GOOGLE ||
          parseCompanyIdLE mfd == CID_SAMSUNG ||
          parseCompanyIdLE mfd == CID_XIAOMI) = true := by
        rcases hk with h | h | h | h <;> simp [h]
      simp only [mfdScan]
      rw [if_pos (by omega), if_pos (by simp [hcid, hen, hdev]), hc]

theorem mfdScan_isSome_iff {cfg : FilterConfig} (md : Option (List Nat)) :
    (mfdScan cfg md).isSome = true ↔ mfdEnabledMatch cfg md = true := by
  cases md with
  | none => simp [mfdScan, mfdEnabledMatch]
  | some mfd =>
    constructor
    · intro h
      obtain ⟨c, hc⟩ := Option.isSome_iff_exists.mp h
      obtain ⟨mfd', hmd, hdev, hen, _⟩ := mfdScan_eq_some_iff.mp hc
      cases hmd
      simp [mfdEnabledMatch, hdev, hen]
    · intro h
      unfold mfdEnabledMatch at h
      rw [Bool.and_eq_true] at h
      rw [Option.isSome_iff_exists]
      exact ⟨_, mfdScan_eq_some_iff.mpr ⟨mfd, rfl, h.1, h.2, rfl⟩⟩

theorem classify_eq_of_rssi {cfg : FilterConfig} {dev : AdvertisedDevice}
    (h : ¬dev.rssi < cfg.minRssi) :
    classify cfg dev =
      match serviceScan cfg dev.serviceData with
      | some c => some c
      | none => mfdScan cfg dev.manufacturerData := by
  simp [classify, h]

theorem companyName_of_knownCid {cid : Nat} (h : knownCid cid) :
    companyName cid ≠ "Other" := by
  rcases h with h | h | h | h <;> subst h <;> decide

theorem mkData (s : String) : String.mk s.data = s := rfl

theorem splitCommaChars_no_comma {xs : List Char} (h : ',' ∉ xs) :
    splitCommaChars xs = [xs] := by
  induction xs with
  | nil => rfl
  | cons c xs ih =>
    have hc : c ≠ ',' := fun hh => h (hh ▸ List.mem_cons_self c xs)
    have hxs : ',' ∉ xs := fun hh => h (List.mem_cons_of_mem _ hh)
    simp [splitCommaChars, hc, ih hxs]

theorem splitCommaChars_append {xs : List Char} (rest : List Char)
    (h : ',' ∉ xs) :
    splitCommaChars (xs ++ ',' :: rest) = xs :: splitCommaChars rest := by
  induction xs with
  | nil => simp [splitCommaChars]
  | cons c xs ih =>
    have hc : c ≠ ',' := fun hh => h (hh ▸ List.mem_cons_self c xs)
    have hxs : ',' ∉ xs := fun hh => h (List.mem_cons_of_mem _ hh)
    simp [splitCommaChars, hc, ih hxs]

theorem splitOnComma_append (s t : String) (h : commaFree s) :
    splitOnComma (s ++ ("," ++ t)) = s :: splitOnComma t := by
  have hd : (s ++ ("," ++ t)).data = s.data ++ ',' :: t.data := by
    rw [String.data_append, String.data_append]
    rfl
  unfold splitOnComma
  rw [hd, splitCommaChars_append _ h]
  simp [mkData]

theorem splitOnComma_of_commaFree (s : String) (h : commaFree s) :
    splitOnComma s = [s] := by
  unfold splitOnComma
  rw [splitCommaChars_no_comma h]
  simp [mkData]

theorem commaFree_companyName (cid : Nat) : commaFree (companyName cid) := by
  unfold companyName
  split_ifs <;> decide

theorem commaFree_advTypeName (t : Nat) : commaFree (advTypeName t) := by
  unfold advTypeName
  split_ifs <;> decide

theorem commaFree_boolStr (b : Bool) : commaFree (boolStr b) := by
  cases b <;> decide

theorem mem_natDecCore {fuel n : Nat} {acc : List Char} {c : Char}
    (h : c ∈ natDecCore fuel n acc) :
    c ∈ acc ∨ ∃ d, d < 10 ∧ c = Nat.digitChar d := by
  induction fuel generalizing n acc with
  | zero => exact Or.inl h
  | succ fuel ih =>
    rw [natDecCore] at h
    split_ifs at h with h10
    · rcases List.mem_cons.mp h with h1 | h1
      · exact Or.inr ⟨n, h10, h1⟩
      · exact Or.inl h1
    · rcases ih h with h1 | h1
      · rcases List.mem_cons.mp h1 with h2 | h2
        · exact Or.inr ⟨n % 10, Nat.mod_lt _ (by omega), h2⟩
        · exact Or.inl h2
      · exact Or.inr h1

theorem digitChar_ne_comma {d : Nat} (h : d < 10) : Nat.digitChar d ≠ ',' := by
  interval_cases d <;> decide

theorem commaFree_intDec (n : Int) : commaFree (intDec n) := by
  unfold intDec
  split_ifs with h
  · intro hmem
    rcases List.mem_cons.mp hmem with h1 | h1
    · exact absurd h1 (by decide)
    · rcases mem_natDecCore h1 with h2 | ⟨d, hd, hc⟩
      · exact absurd h2 (by simp)
      · exact digitChar_ne_comma hd hc.symm
  · intro hmem
    rcases mem_natDecCore hmem with h2 | ⟨d, hd, hc⟩
    · exact absurd h2 (by simp)
    · exact digitChar_ne_comma hd hc.symm

theorem splitOnComma_csvRowBody (r : DeviceRecord) (h : RecordCommaFree r) :
    splitOnComma
      (csvRowBody r.manufacturer r.deviceType r.addr r.rssi r.advType
        r.connectable r.scannable r.dataType r.dataHex r.timestamp) =
      csvFieldsOf r := by
  obtain ⟨h1, h2, h3, h4, h5⟩ := h
  unfold csvRowBody csvFieldsOf
  simp only [String.append_assoc]
  rw [splitOnComma_append _ _ h1,
    splitOnComma_append _ _ (commaFree_companyName _),
    splitOnComma_append _ _ h2,
    splitOnComma_append _ _ h3,
    splitOnComma_append _ _ (commaFree_intDec _),
    splitOnComma_append _ _ (commaFree_advTypeName _),
    splitOnComma_append _ _ (commaFree_boolStr _),
    splitOnComma_append _ _ (commaFree_boolStr _),
    splitOnComma_append _ _ h4,
    splitOnComma_of_commaFree _ h5]

theorem companyName_ne_headerWord (cid : Nat) :
    companyName cid ≠ "manufacturer" := by
  unfold companyName
  split_ifs <;> decide

set_option maxHeartbeats 1600000 in
theorem csvRowOf_ne_header (r : DeviceRecord) (h : RecordCommaFree r) :
    csvRowOf r ≠ csvHeaderEmission := by
  intro heq
  have h1 :
      csvRowBody r.manufacturer r.deviceType r.addr r.rssi r.advType
        r.connectable r.scannable r.dataType r.dataHex r.timestamp ++ "\n" =
      (csvHeader ++ "\r") ++ "\n" := by
    rw [String.append_assoc]
    exact heq
  have h2 :
      csvRowBody r.manufacturer r.deviceType r.addr r.rssi r.advType
        r.connectable r.scannable r.dataType r.dataHex r.timestamp =
      csvHeader ++ "\r" := by
    have h3 := congrArg String.data h1
    rw [String.data_append, String.data_append] at h3
    exact String.ext (List.append_cancel_right h3)
  have hsplit := congrArg splitOnComma h2
  rw [splitOnComma_csvRowBody r h] at hsplit
  have hhdr : splitOnComma (csvHeader ++ "\r") =
      ["time", "manufacturer", "deviceType", "addr", "rssi", "advType",
       "isConnectable", "isScannable", "dataType", "dataHex\r"] := by
    decide
  rw [hhdr] at hsplit
  unfold csvFieldsOf at hsplit
  injection hsplit with _ hrest
  injection hrest with hname _
  exact companyName_ne_headerWord r.manufacturer hname

theorem not_lt_of_admitRssi {m r : Int} (h : admitRssi m r = true) : ¬r < m := by
  simpa [admitRssi] using h

/-- C7: the RSSI admission guard admits `r` iff `r >= minRssi`, the boundary
value is admitted, and a report below the threshold yields no classification
regardless of its data. -/
theorem rssi_filter_spec :
    (∀ minRssi r : Int, admitRssi minRssi r = true ↔ minRssi ≤ r) ∧
    (∀ m : Int, admitRssi m m = true) ∧
    (∀ (cfg : FilterConfig) (dev : AdvertisedDevice),
      dev.rssi < cfg.minRssi → classify cfg dev = none) := by
  refine ⟨?_, ?_, ?_⟩
  · intro m r
    simp [admitRssi, not_lt]
  · intro m
    simp [admitRssi]
  · intro cfg dev h
    simp [classify, h]

theorem rssi_filter_spec_w :
    admitRssi (-50) (-50) = true ∧
    classify ⟨0xF, -50⟩ ⟨-51, "", 0, true, false, [], some [0x4C, 0x00, 0x12, 0xAA]⟩ =
      none :=
  ⟨rssi_filter_spec.2.1 (-50), rssi_filter_spec.2.2 ⟨0xF, -50⟩ _ (by decide)⟩

/-- C5: exact per-UUID behaviour of the service-data decoder: 0xFEF3 needs 3
bytes and maps the first payload byte 0x11/0x10/other to the three Fast Pair
labels under Google; 0xFD6F needs 6 bytes, always "FindMy/Service" under
Apple; 0xFD5A needs 4 bytes, always "SmartTag/Service" under Samsung; any
other UUID never matches. -/
theorem service_decoder_spec (serviceData : List Nat) :
    (isFindMyServiceData SVC_GOOGLE_FAST_PAIR serviceData = true ↔
      3 ≤ serviceData.length) ∧
    serviceToManufacturer SVC_GOOGLE_FAST_PAIR = CID_GOOGLE ∧
    (3 ≤ serviceData.length →
      (serviceData.getD 0 0 % 256 = 0x11 →
        getServiceFindMyType SVC_GOOGLE_FAST_PAIR serviceData =
          "FastPair/FindDevice") ∧
      (serviceData.getD 0 0 % 256 = 0x10 →
        getServiceFindMyType SVC_GOOGLE_FAST_PAIR serviceData =
          "FastPair/Generic") ∧
      (serviceData.getD 0 0 % 256 ≠ 0x11 → serviceData.getD 0 0 % 256 ≠ 0x10 →
        getServiceFindMyType SVC_GOOGLE_FAST_PAIR serviceData =
          "FastPair/Unknown")) ∧
    (isFindMyServiceData SVC_APPLE_FIND_MY serviceData = true ↔
      6 ≤ serviceData.length) ∧
    serviceToManufacturer SVC_APPLE_FIND_MY = CID_APPLE ∧
    getServiceFindMyType SVC_APPLE_FIND_MY serviceData = "FindMy/Service" ∧
    (isFindMyServiceData SVC_SAMSUNG_FIND serviceData = true ↔
      4 ≤ serviceData.length) ∧
    serviceToManufacturer SVC_SAMSUNG_FIND = CID_SAMSUNG ∧
    getServiceFindMyType SVC_SAMSUNG_FIND serviceData = "SmartTag/Service" ∧
    (∀ u : Nat, u ≠ SVC_GOOGLE_FAST_PAIR → u ≠ SVC_APPLE_FIND_MY →
      u ≠ SVC_SAMSUNG_FIND → isFindMyServiceData u serviceData = false) := by
  refine ⟨?_, rfl, ?_, ?_, rfl, rfl, ?_, rfl, rfl, ?_⟩
  · simp [isFindMyServiceData]
  · intro h3
    refine ⟨?_, ?_, ?_⟩
    · intro hb
      rw [List.getD_eq_getElem?_getD] at hb
      simp [getServiceFindMyType, hb, show 1 ≤ serviceData.length by omega]
    · intro hb
      rw [List.getD_eq_getElem?_getD] at hb
      simp [getServiceFindMyType, hb, show 1 ≤ serviceData.length by omega]
    · intro hb1 hb2
      rw [List.getD_eq_getElem?_getD] at hb1 hb2
      simp [getServiceFindMyType, hb1, hb2, show 1 ≤ serviceData.length by omega]
  · simp [isFindMyServiceData, SVC_APPLE_FIND_MY, SVC_GOOGLE_FAST_PAIR,
      SVC_SAMSUNG_FIND]
  · simp [isFindMyServiceData, SVC_APPLE_FIND_MY, SVC_GOOGLE_FAST_PAIR,
      SVC_SAMSUNG_FIND]
  · intro u h1 h2 h3
    simp [isFindMyServiceData, h1, h2, h3]

theorem service_decoder_spec_w :
    isFindMyServiceData SVC_GOOGLE_FAST_PAIR [0x11, 0x01, 0x02] = true ∧
    getServiceFindMyType SVC_GOOGLE_FAST_PAIR [0x11, 0x01, 0x02] =
      "FastPair/FindDevice" ∧
    isFindMyServiceData 0xAAAA [0x11, 0x01, 0x02] = false :=
  ⟨(service_decoder_spec [0x11, 0x01, 0x02]).1.mpr (by decide),
   ((service_decoder_spec [0x11, 0x01, 0x02]).2.2.1 (by decide)).1 (by decide),
   (service_decoder_spec [0x11, 0x01, 0x02]).2.2.2.2.2.2.2.2.2 0xAAAA
     (by decide) (by decide) (by decide)⟩

/-- C3: a classification is produced iff the report passes the RSSI filter
and some decoder (a service-data entry, or the manufacturer data) both
structurally matches and names an enabled manufacturer; every produced
classification names one of the four known manufacturers and never renders
as "Other". -/
theorem classify_produced_iff (cfg : FilterConfig) (dev : AdvertisedDevice) :
    ((classify cfg dev).isSome = true ↔
      admitRssi cfg.minRssi dev.rssi = true ∧
        (dev.serviceData.any (serviceEntryEnabledMatch cfg) = true ∨
          mfdEnabledMatch cfg dev.manufacturerData = true)) ∧
    (∀ c, classify cfg dev = some c →
      knownCid c.manufacturer ∧ isManufacturerEnabled cfg c.manufacturer = true ∧
        companyName c.manufacturer ≠ "Other") := by
  constructor
  · by_cases hr : dev.rssi < cfg.minRssi
    · have ha : admitRssi cfg.minRssi dev.rssi = false := by simp [admitRssi, hr]
      simp [classify, hr, ha]
    · have hra : admitRssi cfg.minRssi dev.rssi = true := by simp [admitRssi, hr]
      rw [classify_eq_of_rssi hr]
      cases hs : serviceScan cfg dev.serviceData with
      | some c =>
        have hspec := serviceScan_some_spec hs
        simp [hra, hspec.2.2.2]
      | none =>
        have hnone := (serviceScan_eq_none_iff dev.serviceData).mp hs
        constructor
        · intro hsome
          exact ⟨hra, Or.inr ((mfdScan_isSome_iff _).mp hsome)⟩
        · rintro ⟨_, hor⟩
          rcases hor with hserv | hmfd
          · rw [hnone] at hserv
            exact absurd hserv (by decide)
          · exact (mfdScan_isSome_iff _).mpr hmfd
  · intro c hc
    by_cases hr : dev.rssi < cfg.minRssi
    · simp [classify, hr] at hc
    · rw [classify_eq_of_rssi hr] at hc
      cases hs : serviceScan cfg dev.serviceData with
      | some c2 =>
        rw [hs] at hc
        have hc2 : some c2 = some c := hc
        cases hc2
        have hspec := serviceScan_some_spec hs
        exact ⟨hspec.2.2.1, hspec.2.1, companyName_of_knownCid hspec.2.2.1⟩
      | none =>
        rw [hs] at hc
        have hc2 : mfdScan cfg dev.manufacturerData = some c := hc
        obtain ⟨mfd, hmd, hdev2, hen, hceq⟩ := mfdScan_eq_some_iff.mp hc2
        subst hceq
        have hk := (isFindMyDevice_known hdev2).2
        exact ⟨hk, hen, companyName_of_knownCid hk⟩

theorem classify_produced_iff_w :
    knownCid CID_APPLE ∧ isManufacturerEnabled ⟨0xF, -50⟩ CID_APPLE = true ∧
      companyName CID_APPLE ≠ "Other" :=
  (classify_produced_iff ⟨0xF, -50⟩
      ⟨0, "", 0, true, false, [], some [0x4C, 0x00, 0x12, 0xAA]⟩).2
    ⟨CID_APPLE, "Manufacturer", "FindMy/AirTag", "4C 00 12 AA"⟩ (by decide)

/-- C4: service-data entries are examined in received order; the first entry
that structurally decodes with an enabled manufacturer yields the
classification and the remaining entries are not examined (the result does
not depend on them), while a structurally decoding entry with a disabled
manufacturer does not stop the scan. -/
theorem service_entry_order :
    (∀ (cfg : FilterConfig) (pre : List ServiceDataEntry) (e : ServiceDataEntry)
        (rest : List ServiceDataEntry),
      (∀ x ∈ pre, serviceEntryEnabledMatch cfg x = false) →
      isFindMyServiceData (uuid16Of e) e.data = true →
      isManufacturerEnabled cfg (serviceToManufacturer (uuid16Of e)) = true →
      serviceScan cfg (pre ++ e :: rest) =
        some ⟨serviceToManufacturer (uuid16Of e), "Service",
              getServiceFindMyType (uuid16Of e) e.data, toHex e.data⟩) ∧
    (∀ (cfg : FilterConfig) (e : ServiceDataEntry)
        (rest : List ServiceDataEntry),
      isFindMyServiceData (uuid16Of e) e.data = true →
      isManufacturerEnabled cfg (serviceToManufacturer (uuid16Of e)) = false →
      serviceScan cfg (e :: rest) = serviceScan cfg rest) := by
  constructor
  · intro cfg pre e rest hpre h1 h2
    rw [serviceScan_append_of_none _ hpre, serviceScan_cons_of_match rest h1 h2]
  · intro cfg e rest h1 h2
    exact serviceScan_cons_of_not rest (by simp [serviceEntryEnabledMatch, h1, h2])

theorem service_entry_order_w :
    serviceScan ⟨0xF, -50⟩
      [⟨16, [0xF3, 0xFE], [0x11, 0x01, 0x02]⟩,
       ⟨16, [0x6F, 0xFD], [0, 0, 0, 0, 0, 0]⟩] =
      some ⟨CID_GOOGLE, "Service", "FastPair/FindDevice", "11 01 02"⟩ ∧
    serviceScan ⟨0x1, -50⟩ [⟨16, [0xF3, 0xFE], [0x11, 0x01, 0x02]⟩] =
      serviceScan ⟨0x1, -50⟩ [] := by
  constructor
  · have h := service_entry_order.1 ⟨0xF, -50⟩ []
      ⟨16, [0xF3, 0xFE], [0x11, 0x01, 0x02]⟩
      [⟨16, [0x6F, 0xFD], [0, 0, 0, 0, 0, 0]⟩]
      (by intro x hx; exact absurd hx (by simp)) (by decide) (by decide)
    exact h.trans (by decide)
  · exact service_entry_order.2 ⟨0x1, -50⟩ _ [] (by decide) (by decide)

/-- C10: a service-data entry whose UUID is not 16 bits wide is treated as
UUID 0, which matches no known service; it never yields a classification,
and deleting it from the entry list changes neither the service scan nor the
overall classification (later entries and the manufacturer-data fallback are
still examined). -/
theorem non16bit_uuid_skipped (cfg : FilterConfig) (e : ServiceDataEntry)
    (h : e.uuidBitSize ≠ 16) :
    uuid16Of e = 0 ∧
    (∀ data : List Nat, isFindMyServiceData 0 data = false) ∧
    (∀ pre rest, serviceScan cfg (pre ++ e :: rest) =
      serviceScan cfg (pre ++ rest)) ∧
    (∀ (dev : AdvertisedDevice) (pre rest : List ServiceDataEntry),
      classify cfg { dev with serviceData := pre ++ e :: rest } =
        classify cfg { dev with serviceData := pre ++ rest }) := by
  have h0 : uuid16Of e = 0 := by simp [uuid16Of, h]
  have hfalse : ∀ data : List Nat, isFindMyServiceData 0 data = false := by
    intro data
    simp [isFindMyServiceData, SVC_GOOGLE_FAST_PAIR, SVC_APPLE_FIND_MY,
      SVC_SAMSUNG_FIND]
  have hnm : serviceEntryEnabledMatch cfg e = false := by
    simp [serviceEntryEnabledMatch, h0, hfalse]
  have hscan : ∀ pre rest, serviceScan cfg (pre ++ e :: rest) =
      serviceScan cfg (pre ++ rest) := by
    intro pre rest
    induction pre with
    | nil => exact serviceScan_cons_of_not rest hnm
    | cons x pre ih =>
      cases hx : serviceEntryEnabledMatch cfg x with
      | true =>
        have hx2 := hx
        simp only [serviceEntryEnabledMatch, Bool.and_eq_true] at hx2
        rw [List.cons_append, List.cons_append,
          serviceScan_cons_of_match _ hx2.1 hx2.2,
          serviceScan_cons_of_match _ hx2.1 hx2.2]
      | false =>
        rw [List.cons_append, List.cons_append,
          serviceScan_cons_of_not _ hx, serviceScan_cons_of_not _ hx]
        exact ih
  refine ⟨h0, hfalse, hscan, ?_⟩
  intro dev pre rest
  show (if dev.rssi < cfg.minRssi then none
    else match serviceScan cfg (pre ++ e :: rest) with
      | some c => some c
      | none => mfdScan cfg dev.manufacturerData) =
    (if dev.rssi < cfg.minRssi then none
    else match serviceScan cfg (pre ++ rest) with
      | some c => some c
      | none => mfdScan cfg dev.manufacturerData)
  rw [hscan pre rest]

theorem non16bit_uuid_skipped_w :
    uuid16Of ⟨32, [0x12, 0x18, 0x00, 0x00], [0x11, 0x01, 0x02]⟩ = 0 ∧
    isFindMyServiceData 0 [0x11, 0x01, 0x02] = false := by
  have h := non16bit_uuid_skipped ⟨0xF, -50⟩
    ⟨32, [0x12, 0x18, 0x00, 0x00], [0x11, 0x01, 0x02]⟩ (by decide)
  exact ⟨h.1, h.2.1 [0x11, 0x01, 0x02]⟩

/-- C6: manufacturer data `4C 00 12 AA` on a report that passes the RSSI
filter and has no enabled-matching service data classifies as
Apple/"FindMy/AirTag" from the manufacturer data when Apple is enabled, and
yields nothing when Apple's mask bit is cleared. -/
theorem apple_airtag_example (cfg : FilterConfig) (r : Int) (addr : String)
    (advType : Nat) (conn scan : Bool) (sd : List ServiceDataEntry)
    (hr : admitRssi cfg.minRssi r = true)
    (hsd : sd.any (serviceEntryEnabledMatch cfg) = false) :
    (FILTER_APPLE cfg = true →
      classify cfg ⟨r, addr, advType, conn, scan, sd,
          some [0x4C, 0x00, 0x12, 0xAA]⟩ =
        some ⟨CID_APPLE, "Manufacturer", "FindMy/AirTag", "4C 00 12 AA"⟩) ∧
    (FILTER_APPLE cfg = false →
      classify cfg ⟨r, addr, advType, conn, scan, sd,
          some [0x4C, 0x00, 0x12, 0xAA]⟩ = none) := by
  have hrr : ¬r < cfg.minRssi := not_lt_of_admitRssi hr
  have hscan : serviceScan cfg sd = none := (serviceScan_eq_none_iff sd).mpr hsd
  have hcid : parseCompanyIdLE [0x4C, 0x00, 0x12, 0xAA] = CID_APPLE := by decide
  constructor
  · intro hap
    rw [@classify_eq_of_rssi cfg
      ⟨r, addr, advType, conn, scan, sd, some [0x4C, 0x00, 0x12, 0xAA]⟩ hrr]
    show (match serviceScan cfg sd with
      | some c => some c
      | none => mfdScan cfg (some [0x4C, 0x00, 0x12, 0xAA])) = _
    rw [hscan]
    show mfdScan cfg (some [0x4C, 0x00, 0x12, 0xAA]) = _
    apply mfdScan_eq_some_iff.mpr
    refine ⟨[0x4C, 0x00, 0x12, 0xAA], rfl, ?_, ?_, ?_⟩
    · rw [hcid]; decide
    · rw [hcid]
      simpa [isManufacturerEnabled] using hap
    · rw [hcid]; decide
  · intro hap
    rw [@classify_eq_of_rssi cfg
      ⟨r, addr, advType, conn, scan, sd, some [0x4C, 0x00, 0x12, 0xAA]⟩ hrr]
    show (match serviceScan cfg sd with
      | some c => some c
      | none => mfdScan cfg (some [0x4C, 0x00, 0x12, 0xAA])) = none
    rw [hscan]
    show mfdScan cfg (some [0x4C, 0x00, 0x12, 0xAA]) = none
    cases hm : mfdScan cfg (some [0x4C, 0x00, 0x12, 0xAA]) with
    | none => rfl
    | some c =>
      obtain ⟨mfd, hmd, hdev2, hen, _⟩ := mfdScan_eq_some_iff.mp hm
      injection hmd with hmd2
      subst hmd2
      rw [hcid] at hen
      simp [isManufacturerEnabled] at hen
      rw [hen] at hap
      exact absurd hap (by decide)

theorem apple_airtag_example_w :
    classify ⟨0xF, -50⟩ ⟨0, "", 0, true, false, [],
        some [0x4C, 0x00, 0x12, 0xAA]⟩ =
      some ⟨CID_APPLE, "Manufacturer", "FindMy/AirTag", "4C 00 12 AA"⟩ ∧
    classify ⟨0xE, -50⟩ ⟨0, "", 0, true, false, [],
        some [0x4C, 0x00, 0x12, 0xAA]⟩ = none :=
  ⟨(apple_airtag_example ⟨0xF, -50⟩ 0 "" 0 true false [] (by decide)
      (by decide)).1 (by decide),
   (apple_airtag_example ⟨0xE, -50⟩ 0 "" 0 true false [] (by decide)
      (by decide)).2 (by decide)⟩

/-- C1 counterexample: with only Apple enabled, a report whose service entry
structurally matches Google Fast Pair (disabled) still falls through to
manufacturer-data decoding and is classified from its Apple manufacturer
data — contradicting the claim that a structural service match always
consumes the first-match slot. -/
theorem service_fallthrough_cex :
    admitRssi (-50) 0 = true ∧
    isFindMyServiceData
      (uuid16Of ⟨16, [0xF3, 0xFE], [0x11, 0x01, 0x02]⟩) [0x11, 0x01, 0x02] =
      true ∧
    classify ⟨0x1, -50⟩
      ⟨0, "aa:bb:cc:dd:ee:ff", 0, true, false,
       [⟨16, [0xF3, 0xFE], [0x11, 0x01, 0x02]⟩],
       some [0x4C, 0x00, 0x12, 0xAA]⟩ =
      some ⟨CID_APPLE, "Manufacturer", "FindMy/AirTag", "4C 00 12 AA"⟩ ∧
    ("Manufacturer" : String) ≠ "Service" := by decide

/-- C1 (amended): when some service entry both structurally matches and has
its manufacturer enabled, the classification comes from a service entry and
the manufacturer data is never consulted (the result is the same for every
manufacturer-data value); a structural match alone, with the manufacturer
disabled, does not block the manufacturer-data fallback. -/
theorem enabled_service_match_blocks_mfd (cfg : FilterConfig)
    (dev : AdvertisedDevice)
    (hr : admitRssi cfg.minRssi dev.rssi = true)
    (hm : dev.serviceData.any (serviceEntryEnabledMatch cfg) = true) :
    ∃ c, c.dataType = "Service" ∧
      ∀ md, classify cfg { dev with manufacturerData := md } = some c := by
  have hrr : ¬dev.rssi < cfg.minRssi := not_lt_of_admitRssi hr
  obtain ⟨c, hc⟩ :=
    Option.isSome_iff_exists.mp ((serviceScan_isSome_iff dev.serviceData).mpr hm)
  refine ⟨c, (serviceScan_some_spec hc).1, ?_⟩
  intro md
  show (if dev.rssi < cfg.minRssi then none
    else match serviceScan cfg dev.serviceData with
      | some c => some c
      | none => mfdScan cfg md) = some c
  rw [if_neg hrr, hc]

theorem enabled_service_match_blocks_mfd_w :
    ∃ c, c.dataType = "Service" ∧
      ∀ md, classify ⟨0xF, -50⟩
        ⟨0, "", 0, true, false, [⟨16, [0xF3, 0xFE], [0x11, 0x01, 0x02]⟩], md⟩ =
        some c :=
  enabled_service_match_blocks_mfd ⟨0xF, -50⟩
    ⟨0, "", 0, true, false, [⟨16, [0xF3, 0xFE], [0x11, 0x01, 0x02]⟩], none⟩
    (by decide) (by decide)

/-- C2 counterexample: a 3-byte Google manufacturer payload `E0 00 06` (and
likewise Xiaomi `8F 03 30`) does not match — `isFindMyDevice` rejects
anything shorter than 4 bytes — and produces no classification even with the
manufacturer enabled. -/
theorem mfd_len3_cex :
    parseCompanyIdLE [0xE0, 0x00, 0x06] = CID_GOOGLE ∧
    FILTER_GOOGLE ⟨0xF, -50⟩ = true ∧
    isFindMyDevice CID_GOOGLE [0xE0, 0x00, 0x06] = false ∧
    classify ⟨0xF, -50⟩ ⟨0, "", 0, true, false, [], some [0xE0, 0x00, 0x06]⟩ =
      none ∧
    parseCompanyIdLE [0x8F, 0x03, 0x30] = CID_XIAOMI ∧
    isFindMyDevice CID_XIAOMI [0x8F, 0x03, 0x30] = false := by decide

/-- C2 (amended): for manufacturer data of length at least 4 whose
little-endian company id is Google with subtype byte 0x06, or Xiaomi with
subtype byte 0x30, and whose enable flag is set, the decoder matches and the
corresponding classification is produced. -/
theorem mfd_google_xiaomi_min4 :
    (∀ (cfg : FilterConfig) (mfd : List Nat), 4 ≤ mfd.length →
      parseCompanyIdLE mfd = CID_GOOGLE → mfd.getD 2 0 % 256 = 0x06 →
      FILTER_GOOGLE cfg = true →
      isFindMyDevice CID_GOOGLE mfd = true ∧
      ∀ (r : Int) (addr : String) (advType : Nat) (conn scan : Bool),
        admitRssi cfg.minRssi r = true →
        classify cfg ⟨r, addr, advType, conn, scan, [], some mfd⟩ =
          some ⟨CID_GOOGLE, "Manufacturer", "FastPair/FindMy", toHex mfd⟩) ∧
    (∀ (cfg : FilterConfig) (mfd : List Nat), 4 ≤ mfd.length →
      parseCompanyIdLE mfd = CID_XIAOMI → mfd.getD 2 0 % 256 = 0x30 →
      FILTER_XIAOMI cfg = true →
      isFindMyDevice CID_XIAOMI mfd = true ∧
      ∀ (r : Int) (addr : String) (advType : Nat) (conn scan : Bool),
        admitRssi cfg.minRssi r = true →
        classify cfg ⟨r, addr, advType, conn, scan, [], some mfd⟩ =
          some ⟨CID_XIAOMI, "Manufacturer", "Anti-Lost", toHex mfd⟩) := by
  constructor
  · intro cfg mfd hlen hcid hsub hen
    rw [List.getD_eq_getElem?_getD] at hsub
    have hdev2 : isFindMyDevice CID_GOOGLE mfd = true := by
      simp [isFindMyDevice, CID_GOOGLE, CID_APPLE, hsub,
        show ¬mfd.length < 4 by omega, show 3 ≤ mfd.length by omega]
    refine ⟨hdev2, ?_⟩
    intro r addr advType conn scan hr
    have hrr : ¬r < cfg.minRssi := not_lt_of_admitRssi hr
    rw [@classify_eq_of_rssi cfg ⟨r, addr, advType, conn, scan, [], some mfd⟩ hrr]
    show mfdScan cfg (some mfd) = _
    apply mfdScan_eq_some_iff.mpr
    refine ⟨mfd, rfl, ?_, ?_, ?_⟩
    · rw [hcid]; exact hdev2
    · rw [hcid]
      simpa [isManufacturerEnabled, CID_GOOGLE, CID_APPLE] using hen
    · rw [hcid]
      simp [getFindMyType, CID_GOOGLE, CID_APPLE, hsub,
        show ¬mfd.length < 3 by omega]
  · intro cfg mfd hlen hcid hsub hen
    rw [List.getD_eq_getElem?_getD] at hsub
    have hdev2 : isFindMyDevice CID_XIAOMI mfd = true := by
      simp [isFindMyDevice, CID_XIAOMI, CID_APPLE, CID_GOOGLE, CID_SAMSUNG, hsub,
        show ¬mfd.length < 4 by omega, show 3 ≤ mfd.length by omega]
    refine ⟨hdev2, ?_⟩
    intro r addr advType conn scan hr
    have hrr : ¬r < cfg.minRssi := not_lt_of_admitRssi hr
    rw [@classify_eq_of_rssi cfg ⟨r, addr, advType, conn, scan, [], some mfd⟩ hrr]
    show mfdScan cfg (some mfd) = _
    apply mfdScan_eq_some_iff.mpr
    refine ⟨mfd, rfl, ?_, ?_, ?_⟩
    · rw [hcid]; exact hdev2
    · rw [hcid]
      simpa [isManufacturerEnabled, CID_XIAOMI, CID_APPLE, CID_GOOGLE,
        CID_SAMSUNG] using hen
    · rw [hcid]
      simp [getFindMyType, CID_XIAOMI, CID_APPLE, CID_GOOGLE, CID_SAMSUNG, hsub,
        show ¬mfd.length < 3 by omega]

theorem mfd_google_xiaomi_min4_w :
    isFindMyDevice CID_GOOGLE [0xE0, 0x00, 0x06, 0x00] = true ∧
    classify ⟨0xF, -50⟩ ⟨0, "", 0, true, false, [],
        some [0xE0, 0x00, 0x06, 0x00]⟩ =
      some ⟨CID_GOOGLE, "Manufacturer", "FastPair/FindMy",
            toHex [0xE0, 0x00, 0x06, 0x00]⟩ ∧
    isFindMyDevice CID_XIAOMI [0x8F, 0x03, 0x30, 0x01] = true := by
  have h1 := mfd_google_xiaomi_min4.1 ⟨0xF, -50⟩ [0xE0, 0x00, 0x06, 0x00]
    (by decide) (by decide) (by decide) (by decide)
  have h2 := mfd_google_xiaomi_min4.2 ⟨0xF, -50⟩ [0x8F, 0x03, 0x30, 0x01]
    (by decide) (by decide) (by decide) (by decide)
  exact ⟨h1.1, h1.2 0 "" 0 true false (by decide), h2.1⟩

/-- C9 counterexample: the rendered Log line pads the manufacturer to width
8, the device type to 18, the data type to 12 and the /SCAN suffix to 2, so
a non-scannable report contributes two spaces after CONN/NONCONN and the
line differs from the single-space layout the claim states. -/
theorem log_layout_cex :
    formatDeviceAsLog CID_APPLE "FindMy/AirTag" "aa:bb:cc:dd:ee:ff" (-45) 0
        true false "Manufacturer" "4C 00 12 AA" "2025-01-01 00:00:00.000" =
      "2025-01-01 00:00:00.000 | Apple    FindMy/AirTag      | aa:bb:cc:dd:ee:ff | RSSI -45 | PDU ADV_IND | CONN   | Manufacturer [4C 00 12 AA]\n" ∧
    formatDeviceAsLog CID_APPLE "FindMy/AirTag" "aa:bb:cc:dd:ee:ff" (-45) 0
        true false "Manufacturer" "4C 00 12 AA" "2025-01-01 00:00:00.000" ≠
      specLogLine CID_APPLE "FindMy/AirTag" "aa:bb:cc:dd:ee:ff" (-45) 0
        true false "Manufacturer" "4C 00 12 AA" "2025-01-01 00:00:00.000" := by
  constructor
  · decide
  · decide

/-- C9 (amended): the rendered Log line matches, byte for byte, the layout
with snprintf field widths applied: manufacturer left-justified to 8, device
type to 18, the /SCAN suffix to 2 (two spaces when not scannable), and the
data type to 12. -/
theorem log_layout_padded (manufacturer : Nat) (deviceType addr : String)
    (rssi : Int) (advType : Nat) (connectable scannable : Bool)
    (dataType dataHex timestamp : String) :
    formatDeviceAsLog manufacturer deviceType addr rssi advType connectable
        scannable dataType dataHex timestamp =
      specLogLinePadded manufacturer deviceType addr rssi advType connectable
        scannable dataType dataHex timestamp := rfl

/-- C8: in CSV mode the header line is emitted exactly once, before any
record; each record is one comma-separated row in the documented field
order, and splitting the row body on commas recovers the timestamp,
manufacturer name, device type, address, RSSI, advertisement type,
flags, data type and hex byte string exactly. -/
theorem csv_mode_spec (recs : List DeviceRecord)
    (hrec : ∀ r ∈ recs, RecordCommaFree r) :
    csvEmissions recs = csvHeaderEmission :: recs.map csvRowOf ∧
    (csvEmissions recs).count csvHeaderEmission = 1 ∧
    (∀ r : DeviceRecord, RecordCommaFree r →
      csvRowOf r =
        csvRowBody r.manufacturer r.deviceType r.addr r.rssi r.advType
          r.connectable r.scannable r.dataType r.dataHex r.timestamp ++ "\n" ∧
      splitOnComma
        (csvRowBody r.manufacturer r.deviceType r.addr r.rssi r.advType
          r.connectable r.scannable r.dataType r.dataHex r.timestamp) =
        csvFieldsOf r) := by
  refine ⟨rfl, ?_, ?_⟩
  · unfold csvEmissions
    have hz : (recs.map csvRowOf).count csvHeaderEmission = 0 := by
      rw [List.count_eq_zero]
      intro hmem
      obtain ⟨r, hrmem, hreq⟩ := List.mem_map.mp hmem
      exact csvRowOf_ne_header r (hrec r hrmem) hreq
    rw [List.count_cons_self, hz]
  · intro r hr
    exact ⟨rfl, splitOnComma_csvRowBody r hr⟩

set_option maxHeartbeats 1600000 in
theorem csv_mode_spec_w :
    (csvEmissions
      [⟨CID_APPLE, "FindMy/AirTag", "aa:bb:cc:dd:ee:ff", -45, 0, true, false,
        "Manufacturer", "4C 00 12 AA", "2025-01-01 00:00:00.000"⟩]).count
      csvHeaderEmission = 1 ∧
    splitOnComma
      (csvRowBody CID_APPLE "FindMy/AirTag" "aa:bb:cc:dd:ee:ff" (-45) 0 true
        false "Manufacturer" "4C 00 12 AA" "2025-01-01 00:00:00.000") =
      ["2025-01-01 00:00:00.000", "Apple", "FindMy/AirTag",
       "aa:bb:cc:dd:ee:ff", "-45", "ADV_IND", "true", "false", "Manufacturer",
       "4C 00 12 AA"] := by
  have h := csv_mode_spec
    [⟨CID_APPLE, "FindMy/AirTag", "aa:bb:cc:dd:ee:ff", -45, 0, true, false,
      "Manufacturer", "4C 00 12 AA", "2025-01-01 00:00:00.000"⟩]
    (by intro r hr; rw [List.mem_singleton.mp hr]; exact (by decide))
  refine ⟨h.2.1, ?_⟩
  have h2 := (h.2.2
    ⟨CID_APPLE, "FindMy/AirTag", "aa:bb:cc:dd:ee:ff", -45, 0, true, false,
     "Manufacturer", "4C 00 12 AA", "2025-01-01 00:00:00.000"⟩ (by decide)).2
  exact h2.trans (by decide)

end FindMyScanner
